import Mathlib

/-!
# RunOSBuild (cmd/osbuild-worker/osbuild.go)

A shallow embedding of `RunOSBuild`, the function that runs one `osbuild`
subprocess, sends it a manifest on stdin, decodes one result record from its
stdout and reconciles the record with the exit status.

The calls into `os/exec`, `encoding/json` and the subprocess itself are the
environment of the function.  Their outcomes are collected in a `World`, which
gives the value that each call the function makes returns.  The
function is then a pure function of the world and its four arguments, which
returns both Go return values together with the command it built and the
sequence of calls it made.

The types `distro.Manifest`, `common.ComposeResult` and `io.Writer` are declared
outside this file of the repository; they are type parameters here.
-/

namespace OSBuild

/-! ## Errors -/

/-- An error value handed back by a library call (`cmd.StdinPipe`, `cmd.Start`,
`Encode`, `Decode`, `cmd.Wait`, ...).  `Error` is the text of `err.Error()`,
which is what the verb `%v` prints; `GoString` is its Go-syntax form, which is
what the verb `%#v` prints. -/
structure ExtError where
  Error : String
  GoString : String
deriving DecidableEq, Repr

/-- The struct `OSBuildError`: a message and a pointer to a result (`none` is
the nil pointer). -/
structure OSBuildError (ComposeResult : Type) where
  Message : String
  Result : Option ComposeResult
deriving DecidableEq, Repr

/-- The method `func (e *OSBuildError) Error() string`. -/
def OSBuildError.Error {ComposeResult : Type} (e : OSBuildError ComposeResult) : String :=
  e.Message

/-- The dynamic values of the interface type `error` that `RunOSBuild` returns:
either the value built by `fmt.Errorf` (which holds only its text) or a pointer
to an `OSBuildError`. -/
inductive GoError (ComposeResult : Type) where
  | fmtError (text : String)
  | osbuild (e : OSBuildError ComposeResult)
deriving DecidableEq, Repr

/-- The text of an error, `err.Error()`. -/
def GoError.Error {ComposeResult : Type} : GoError ComposeResult → String
  | .fmtError text => text
  | .osbuild e => e.Error

/-- The call `fmt.Errorf(lead + "%v", err)`. -/
def Errorf_v {ComposeResult : Type} (lead : String) (err : ExtError) : GoError ComposeResult :=
  .fmtError (lead ++ err.Error)

/-- The call `fmt.Errorf(lead + "%#v", err)`. -/
def Errorf_sharp_v {ComposeResult : Type} (lead : String) (err : ExtError) :
    GoError ComposeResult :=
  .fmtError (lead ++ err.GoString)

/-- The call `fmt.Sprintf(lead + "%v", err)`. -/
def Sprintf_v (lead : String) (err : ExtError) : String :=
  lead ++ err.Error

/-! ## The command -/

/-- The fields of `exec.Cmd` that `RunOSBuild` sets. `Args` holds the command
name followed by its arguments, as in Go. -/
structure Cmd (Writer : Type) where
  Path : String
  Args : List String
  Stderr : Option Writer
deriving DecidableEq, Repr

/-- The call `exec.Command(name, arg...)`.  `Args` is the name followed by the
arguments and `Stderr` is left nil.  `Path` is the name, unless the name has no
path separator (Go tests `filepath.Base(name) == name`): then `exec.LookPath`
is asked, here `lookPath`, and a non-empty answer replaces the name. -/
def exec_Command {Writer : Type} (lookPath : String → String) (name : String)
    (arg : List String) : Cmd Writer :=
  { Path :=
      if name ≠ "" ∧ ¬ name.data.contains '/' then
        (if lookPath name ≠ "" then lookPath name else name)
      else name,
    Args := name :: arg,
    Stderr := none }

/-! ## The calls and the environment -/

/-- The calls with an effect outside the function, one per call site of
`RunOSBuild`, in source order. -/
inductive Effect where
  | stdinPipe
  | stdoutPipe
  | start
  | encode
  | closeStdin
  | decode
  | wait
deriving DecidableEq, Repr

/-- What the calls of `RunOSBuild` return in one run, and how the process ends.
`none` is a nil error.  `lookPath` is `exec.LookPath`, with the empty text for
a name that is not found.  `marshal` is the error of turning the manifest into
JSON and `write` the error of writing that JSON to the stdin pipe, the two
steps of `Encode`.  `decode` gives either the decoded record or the decoder's
error, and `wait` the error of `cmd.Wait`; for a call that the function does not
reach, the field is what the call would return.  `abnormal` tells whether the
process terminates with a non-zero status or by a signal; `cmd.Wait` then
returns an error, and it may return one for other reasons too. -/
structure World (Manifest ComposeResult : Type) where
  lookPath : String → String
  stdinPipe : Option ExtError
  stdoutPipe : Option ExtError
  start : Option ExtError
  marshal : Manifest → Option ExtError
  write : Manifest → Option ExtError
  closeStdin : Option ExtError
  decode : Except ExtError ComposeResult
  wait : Option ExtError
  abnormal : Bool

/-- The call `json.NewEncoder(stdin).Encode(manifest)`: it marshals the manifest
and returns the error of that if there is one, and otherwise writes the bytes
to stdin and returns the error of the write. -/
def World.encode {Manifest ComposeResult : Type} (w : World Manifest ComposeResult)
    (manifest : Manifest) : Option ExtError :=
  match w.marshal manifest with
  | some err => some err
  | none => w.write manifest

/-- What one call of `RunOSBuild` leaves behind: the two return values
(`result` is the `*common.ComposeResult`, `err` the `error`), the command it
built, and the calls it made, oldest first. -/
structure Outcome (ComposeResult Writer : Type) where
  cmd : Cmd Writer
  trace : List Effect
  result : Option ComposeResult
  err : Option (GoError ComposeResult)

/-! ## RunOSBuild -/

/-- The function `RunOSBuild`, statement by statement. -/
def RunOSBuild {Manifest ComposeResult Writer : Type}
    (w : World Manifest ComposeResult) (manifest : Manifest)
    (store outputDirectory : String) (errorWriter : Writer) :
    Outcome ComposeResult Writer :=
  let cmd : Cmd Writer :=
    exec_Command w.lookPath "osbuild"
      ["--store", store, "--output-directory", outputDirectory, "--json", "-"]
  let cmd := { cmd with Stderr := some errorWriter }
  let t : List Effect := []
  -- stdin, err := cmd.StdinPipe()
  let t := t ++ [Effect.stdinPipe]
  match w.stdinPipe with
  | some err => ⟨cmd, t, none, some (Errorf_v "error setting up stdin for osbuild: " err)⟩
  | none =>
  -- stdout, err := cmd.StdoutPipe()
  let t := t ++ [Effect.stdoutPipe]
  match w.stdoutPipe with
  | some err => ⟨cmd, t, none, some (Errorf_v "error setting up stdout for osbuild: " err)⟩
  | none =>
  -- err = cmd.Start()
  let t := t ++ [Effect.start]
  match w.start with
  | some err => ⟨cmd, t, none, some (Errorf_v "error starting osbuild: " err)⟩
  | none =>
  -- err = json.NewEncoder(stdin).Encode(manifest)
  let t := t ++ [Effect.encode]
  match w.encode manifest with
  | some err => ⟨cmd, t, none, some (Errorf_v "error encoding osbuild pipeline: " err)⟩
  | none =>
  -- _ = stdin.Close()
  let t := t ++ [Effect.closeStdin]
  let _ := w.closeStdin
  -- err = json.NewDecoder(stdout).Decode(&result)
  let t := t ++ [Effect.decode]
  match w.decode with
  | .error err => ⟨cmd, t, none, some (Errorf_sharp_v "error decoding osbuild output: " err)⟩
  | .ok result =>
  -- err = cmd.Wait()
  let t := t ++ [Effect.wait]
  match w.wait with
  | some err =>
    ⟨cmd, t, none,
      some (.osbuild { Message := Sprintf_v "running osbuild failed: " err,
                       Result := some result })⟩
  | none => ⟨cmd, t, some result, none⟩

/-- The calls of the protocol in order. -/
def protocolOrder : List Effect :=
  [.stdinPipe, .stdoutPipe, .start, .encode, .closeStdin, .decode, .wait]

/-! ## Reading a run -/

/-- The first call of a run whose outcome is an error, with that error, in the
order in which `RunOSBuild` makes the calls.  The error of `stdin.Close()` is
dropped by the function and is not a failure of the run. -/
def firstFailure {Manifest ComposeResult : Type}
    (w : World Manifest ComposeResult) (manifest : Manifest) : Option (Effect × ExtError) :=
  match w.stdinPipe with
  | some e => some (.stdinPipe, e)
  | none =>
  match w.stdoutPipe with
  | some e => some (.stdoutPipe, e)
  | none =>
  match w.start with
  | some e => some (.start, e)
  | none =>
  match w.encode manifest with
  | some e => some (.encode, e)
  | none =>
  match w.decode with
  | .error e => some (.decode, e)
  | .ok _ =>
  match w.wait with
  | some e => some (.wait, e)
  | none => none

/-- The text before the colon in the message of each return statement of
`RunOSBuild`, by the call whose error the statement reports.  The error of
`stdin.Close()` is reported nowhere. -/
def stepLead : Effect → String
  | .stdinPipe => "error setting up stdin for osbuild"
  | .stdoutPipe => "error setting up stdout for osbuild"
  | .start => "error starting osbuild"
  | .encode => "error encoding osbuild pipeline"
  | .closeStdin => ""
  | .decode => "error decoding osbuild output"
  | .wait => "running osbuild failed"

/-- Whether the text `s` starts with the text `lead`. -/
def hasLead (lead s : String) : Bool :=
  lead.data.isPrefixOf s.data

/-- A reader of the returned error: the call whose failure the error reports,
found from the dynamic type of the error and the start of its message. -/
def failedStep {ComposeResult : Type} : GoError ComposeResult → Option Effect
  | .osbuild _ => some .wait
  | .fmtError text =>
    if hasLead "error setting up stdin for osbuild: " text then some .stdinPipe
    else if hasLead "error setting up stdout for osbuild: " text then some .stdoutPipe
    else if hasLead "error starting osbuild: " text then some .start
    else if hasLead "error encoding osbuild pipeline: " text then some .encode
    else if hasLead "error decoding osbuild output: " text then some .decode
    else none

/-- The failure categories of the error taxonomy. -/
inductive Category where
  | transportSetup
  | encoding
  | decoding
  | engineWithResult
  | engineWithoutResult
deriving DecidableEq, Repr

/-- The category of a run in the words of the error taxonomy of the
specification (the source has no such notion), read on what happens in the run
and not on which call of the function reports it.
* Transport setup failure: a pipe cannot be created or the process cannot be
  started.
* Encoding failure: the manifest cannot be serialized.
* Otherwise the process runs and the manifest serializes.  If the process
  terminates abnormally, the run is an engine failure: with result when a
  valid record was decoded, which takes that the manifest was written and that
  the output decodes; without result when no valid record was decoded.
* If the process does not terminate abnormally and its output does not parse
  into a valid record, the run is a decoding failure.
`none` is a run to which the taxonomy gives no failure category. -/
def category {Manifest ComposeResult : Type}
    (w : World Manifest ComposeResult) (manifest : Manifest) : Option Category :=
  if w.stdinPipe.isSome || w.stdoutPipe.isSome || w.start.isSome then some .transportSetup
  else if (w.marshal manifest).isSome then some .encoding
  else if w.abnormal then
    match w.write manifest, w.decode with
    | none, .ok _ => some .engineWithResult
    | _, _ => some .engineWithoutResult
  else
    match w.decode with
    | .error _ => some .decoding
    | .ok _ => none

/-- The categories up to what the returned error tells apart: engine failure
without result is put with decoding failure. -/
def Category.coarse : Category → Category
  | .engineWithoutResult => .decoding
  | c => c

/-! ## Resources held at return -/

/-- The process was started in the run: `cmd.Start` was called and returned a
nil error. -/
def processStarted {Manifest ComposeResult Writer : Type}
    (w : World Manifest ComposeResult) (o : Outcome ComposeResult Writer) : Bool :=
  decide (Effect.start ∈ o.trace) && w.start.isNone

/-- The function called `cmd.Wait` in the run. -/
def waitCalled {ComposeResult Writer : Type} (o : Outcome ComposeResult Writer) : Bool :=
  decide (Effect.wait ∈ o.trace)

/-- The stdin pipe was created in the run: `cmd.StdinPipe` was called and
returned a nil error. -/
def stdinPipeCreated {Manifest ComposeResult Writer : Type}
    (w : World Manifest ComposeResult) (o : Outcome ComposeResult Writer) : Bool :=
  decide (Effect.stdinPipe ∈ o.trace) && w.stdinPipe.isNone

/-- The function called `stdin.Close` in the run. -/
def stdinCloseCalled {ComposeResult Writer : Type} (o : Outcome ComposeResult Writer) : Bool :=
  decide (Effect.closeStdin ∈ o.trace)

/-! ## Concrete runs -/

/-- A record type for the concrete runs: a success flag and the stages. -/
abbrev Record : Type := Bool × List String

/-- A manifest type for the concrete runs: the stages of the pipeline. -/
abbrev Pipeline : Type := List String

/-- The error `exit status 1` of `cmd.Wait`. -/
def exitStatus1 : ExtError :=
  { Error := "exit status 1", GoString := "&exec.ExitError\x7b...\x7d" }

/-- The error `io.ErrUnexpectedEOF` of the decoder. -/
def unexpectedEOF : ExtError :=
  { Error := "unexpected EOF", GoString := "&errors.errorString\x7bs:\"unexpected EOF\"\x7d" }

/-- The error of starting a binary that does not exist. -/
def notFound : ExtError :=
  { Error := "exec: \"osbuild\": executable file not found in $PATH",
    GoString := "&exec.Error\x7b...\x7d" }

/-- An error of a write to a closed pipe. -/
def brokenPipe : ExtError :=
  { Error := "write |1: broken pipe", GoString := "&fs.PathError\x7b...\x7d" }

/-- An error of creating a pipe. -/
def tooManyFiles : ExtError :=
  { Error := "pipe2: too many open files", GoString := "&os.SyscallError\x7b...\x7d" }

/-- The run in which every call succeeds and the process emits `r`. -/
def worldOk (r : Record) : World Pipeline Record :=
  { lookPath := fun _ => "/usr/bin/osbuild",
    stdinPipe := none, stdoutPipe := none, start := none,
    marshal := fun _ => none, write := fun _ => none,
    closeStdin := none, decode := .ok r, wait := none, abnormal := false }

/-- The run in which the process emits `r` and exits with status 1. -/
def worldExit1 (r : Record) : World Pipeline Record :=
  { worldOk r with wait := some exitStatus1, abnormal := true }

/-- The run in which the process emits a truncated record and then exits with
status zero. -/
def worldTruncatedExit0 : World Pipeline Record :=
  { worldOk (false, []) with decode := .error unexpectedEOF }

/-- The run in which the process emits a truncated record and then terminates
with status 1. -/
def worldTruncatedExit1 : World Pipeline Record :=
  { worldOk (false, []) with
    decode := .error unexpectedEOF, wait := some exitStatus1, abnormal := true }

/-- The run in which the binary does not exist. -/
def worldNotFound : World Pipeline Record :=
  { worldOk (false, []) with lookPath := fun _ => "", start := some notFound }

/-- The run in which writing the manifest fails. -/
def worldEncodeFails : World Pipeline Record :=
  { worldOk (false, []) with write := fun _ => some brokenPipe }

/-- An error of marshalling a manifest. -/
def marshalError : ExtError :=
  { Error := "json: error calling MarshalJSON for type distro.Manifest: unexpected end of JSON input",
    GoString := "&json.MarshalerError\x7b...\x7d" }

/-- The run in which the manifest cannot be serialized. -/
def worldMarshalFails : World Pipeline Record :=
  { worldOk (false, []) with marshal := fun _ => some marshalError }

/-- The run in which the process exits with status 1 at once, without output,
and the write of the manifest meets the closed pipe. -/
def worldCrashAtOnce : World Pipeline Record :=
  { worldOk (false, []) with
    write := fun _ => some brokenPipe, decode := .error unexpectedEOF,
    wait := some exitStatus1, abnormal := true }

/-- The run in which the stdout pipe cannot be created. -/
def worldNoStdout : World Pipeline Record :=
  { worldOk (false, []) with stdoutPipe := some tooManyFiles }

/-- The run in which the stdin pipe cannot be created. -/
def worldNoStdin : World Pipeline Record :=
  { worldOk (false, []) with stdinPipe := some tooManyFiles }

/-! ## The two pipes between `RunOSBuild` and the process

After `cmd.Start` the function and the process run side by side, joined by the
stdin pipe and the stdout pipe.  A write to a pipe that takes no more bytes
blocks, and so does a read from an empty pipe whose other end is open.  How a
pipe accounts for its room is left open: all that is asked of it is that it
never holds more than its capacity.  Bytes move one at a time, so that a write
or a read of several bytes is several moves.  The function makes its calls in
the order of `RunOSBuild`, each one after the one before has returned.
-/

/-- One instruction of a subprocess: read a byte of its stdin, or write a byte
to its stdout. -/
inductive ChildOp where
  | readByte
  | writeByte
deriving DecidableEq, Repr

/-- The calls that `RunOSBuild` makes after `cmd.Start`, in the order in which it
makes them: the calls of a run in which each call returns without error, less
the creation of the two pipes and the start. -/
def callsAfterStart : List Effect :=
  (RunOSBuild (worldOk (true, [])) ([] : Pipeline) "" "" ()).trace.drop 3

/-- The function, the process and the two pipes between them.  `calls` are the
calls of `RunOSBuild` that have not returned yet, the first of them being the
one in progress, and the empty list is the function that has returned; `left`
counts the bytes that `Encode` has still to write; `stdin` and `stdout` count the
bytes held in each pipe; `child` is what the process still has to do, and the
empty list is the process that has exited. -/
structure Sys where
  calls : List Effect
  left : Nat
  stdin : Nat
  stdinClosed : Bool
  stdout : Nat
  child : List ChildOp
deriving DecidableEq, Repr

/-- The two pipes: whether the stdin pipe, and the stdout pipe, takes one more
byte in a given state.  The answer may depend on anything in the state, so
that no way of accounting for the room of a pipe is fixed. -/
structure Pipes where
  stdinTakes : Sys → Bool
  stdoutTakes : Sys → Bool

/-- Neither pipe ever holds more than `cap` bytes: a pipe that takes a byte
holds fewer than `cap` bytes. -/
def Pipes.Bounded (p : Pipes) (cap : Nat) : Prop :=
  (∀ s, p.stdinTakes s = true → s.stdin < cap) ∧
  (∀ s, p.stdoutTakes s = true → s.stdout < cap)

/-- The pipes that take a byte whenever they hold fewer than `cap` bytes, the
most that pipes bounded by `cap` can take. -/
def byteCounter (cap : Nat) : Pipes :=
  { stdinTakes := fun s => decide (s.stdin < cap),
    stdoutTakes := fun s => decide (s.stdout < cap) }

/-- The moves of `RunOSBuild` from a state; none when the call in progress
blocks.  In `Encode` it writes the next byte if the stdin pipe takes it, and
the write fails (the function returns the encoding error) if the process is
gone; when no byte is left `Encode` returns.  `stdin.Close()` closes stdin.  In
`Decode` it reads a byte, after which the record may be incomplete, complete
(`Decode` returns) or malformed (the function returns the decoding error); at
the end of the stream the function returns the decoding error.  `cmd.Wait`
returns once the process has exited, and the function returns after it. -/
def parentMoves (p : Pipes) (s : Sys) : List Sys :=
  match s.calls with
  | [] => []
  | .encode :: rest =>
    match s.left with
    | k + 1 =>
      if s.child = [] then [{ s with calls := [] }]
      else if p.stdinTakes s then [{ s with left := k, stdin := s.stdin + 1 }]
      else []
    | 0 => [{ s with calls := rest }]
  | .closeStdin :: rest => [{ s with calls := rest, stdinClosed := true }]
  | .decode :: rest =>
    if 0 < s.stdout then
      [{ s with stdout := s.stdout - 1 },
       { s with stdout := s.stdout - 1, calls := rest },
       { s with stdout := s.stdout - 1, calls := [] }]
    else if s.child = [] then [{ s with calls := [] }]
    else []
  | .wait :: _ => if s.child = [] then [{ s with calls := [] }] else []
  | _ :: rest => [{ s with calls := rest }]

/-- The moves of the process from a state; none when it has exited or its
current instruction blocks.  A read takes a byte from the stdin pipe, or sees
the end of input once the pipe is empty and closed; a write puts a byte in the
stdout pipe if the pipe takes it. -/
def childMoves (p : Pipes) (s : Sys) : List Sys :=
  match s.child with
  | [] => []
  | .readByte :: rest =>
    if 0 < s.stdin then [{ s with stdin := s.stdin - 1, child := rest }]
    else if s.stdinClosed then [{ s with child := rest }]
    else []
  | .writeByte :: rest =>
    if p.stdoutTakes s then [{ s with stdout := s.stdout + 1, child := rest }]
    else []

/-- All moves from a state, of either side. -/
def moves (p : Pipes) (s : Sys) : List Sys :=
  parentMoves p s ++ childMoves p s

/-- The state `t` is reached from `s` by moves of either side, in any
interleaving. -/
inductive Reach (p : Pipes) (s : Sys) : Sys → Prop where
  | here : Reach p s s
  | move {t u : Sys} : Reach p s t → u ∈ moves p t → Reach p s u

/-- The state right after `cmd.Start`: the function is about to make the calls
that follow the start, `Encode` has `bytes` bytes to write (the JSON of the
manifest and the newline that `Encode` puts after it), both pipes are empty,
and the process has `child` to do. -/
def started (bytes : Nat) (child : List ChildOp) : Sys :=
  { calls := callsAfterStart, left := bytes, stdin := 0, stdinClosed := false, stdout := 0,
    child := child }

/-- A process that writes `out` bytes of output and only then reads `bytes`
bytes of input. -/
def writesFirst (out bytes : Nat) : List ChildOp :=
  List.replicate out .writeByte ++ List.replicate bytes .readByte

/-- The states of a run in which `Encode` has `cap + x + 1` bytes to write and the
process writes `cap + y + 1` bytes before it does `rest`: the function is still
in `Encode` with bytes left to write, and the process is still writing its
first output. -/
def Jammed (cap x y : Nat) (rest : List ChildOp) (s : Sys) : Prop :=
  ∃ k n cs, s.calls = Effect.encode :: cs ∧ s.left = k + 1 ∧
    s.child = List.replicate (n + 1) ChildOp.writeByte ++ rest ∧
    k + s.stdin = cap + x ∧ n + s.stdout = cap + y ∧
    s.stdin ≤ cap ∧ s.stdout ≤ cap

/-! ## Lemmas on messages -/

section Theorems

variable {Manifest ComposeResult Writer : Type}

theorem hasLead_append (lead x : String) : hasLead lead (lead ++ x) = true := by
  simp [hasLead, String.data_append]

theorem failedStep_stdinPipe (e : ExtError) :
    failedStep (Errorf_v "error setting up stdin for osbuild: " e : GoError ComposeResult)
      = some .stdinPipe := by
  simp [failedStep, Errorf_v, hasLead_append]

theorem failedStep_stdoutPipe (e : ExtError) :
    failedStep (Errorf_v "error setting up stdout for osbuild: " e : GoError ComposeResult)
      = some .stdoutPipe := by
  have h : hasLead "error setting up stdin for osbuild: "
      ("error setting up stdout for osbuild: " ++ e.Error) = false := by
    unfold hasLead; rw [String.data_append]; rfl
  simp [failedStep, Errorf_v, hasLead_append, h]

theorem failedStep_start (e : ExtError) :
    failedStep (Errorf_v "error starting osbuild: " e : GoError ComposeResult)
      = some .start := by
  have h1 : hasLead "error setting up stdin for osbuild: "
      ("error starting osbuild: " ++ e.Error) = false := by
    unfold hasLead; rw [String.data_append]; rfl
  have h2 : hasLead "error setting up stdout for osbuild: "
      ("error starting osbuild: " ++ e.Error) = false := by
    unfold hasLead; rw [String.data_append]; rfl
  simp [failedStep, Errorf_v, hasLead_append, h1, h2]

theorem failedStep_encode (e : ExtError) :
    failedStep (Errorf_v "error encoding osbuild pipeline: " e : GoError ComposeResult)
      = some .encode := by
  have h1 : hasLead "error setting up stdin for osbuild: "
      ("error encoding osbuild pipeline: " ++ e.Error) = false := by
    unfold hasLead; rw [String.data_append]; rfl
  have h2 : hasLead "error setting up stdout for osbuild: "
      ("error encoding osbuild pipeline: " ++ e.Error) = false := by
    unfold hasLead; rw [String.data_append]; rfl
  have h3 : hasLead "error starting osbuild: "
      ("error encoding osbuild pipeline: " ++ e.Error) = false := by
    unfold hasLead; rw [String.data_append]; rfl
  simp [failedStep, Errorf_v, hasLead_append, h1, h2, h3]

theorem failedStep_decode (e : ExtError) :
    failedStep (Errorf_sharp_v "error decoding osbuild output: " e : GoError ComposeResult)
      = some .decode := by
  have h1 : hasLead "error setting up stdin for osbuild: "
      ("error decoding osbuild output: " ++ e.GoString) = false := by
    unfold hasLead; rw [String.data_append]; rfl
  have h2 : hasLead "error setting up stdout for osbuild: "
      ("error decoding osbuild output: " ++ e.GoString) = false := by
    unfold hasLead; rw [String.data_append]; rfl
  have h3 : hasLead "error starting osbuild: "
      ("error decoding osbuild output: " ++ e.GoString) = false := by
    unfold hasLead; rw [String.data_append]; rfl
  have h4 : hasLead "error encoding osbuild pipeline: "
      ("error decoding osbuild output: " ++ e.GoString) = false := by
    unfold hasLead; rw [String.data_append]; rfl
  simp [failedStep, Errorf_sharp_v, hasLead_append, h1, h2, h3, h4]

theorem failedStep_osbuild (e : OSBuildError ComposeResult) :
    failedStep (GoError.osbuild e) = some .wait := rfl

/-! ## The outcome of a run, by the first call that fails -/

theorem run_stdinPipe_fails (w : World Manifest ComposeResult) (manifest : Manifest)
    (store outputDirectory : String) (errorWriter : Writer) (e : ExtError)
    (h : w.stdinPipe = some e) :
    (RunOSBuild w manifest store outputDirectory errorWriter).trace = [.stdinPipe] ∧
    (RunOSBuild w manifest store outputDirectory errorWriter).result = none ∧
    (RunOSBuild w manifest store outputDirectory errorWriter).err
      = some (Errorf_v "error setting up stdin for osbuild: " e) := by
  simp [RunOSBuild, h]

theorem run_stdoutPipe_fails (w : World Manifest ComposeResult) (manifest : Manifest)
    (store outputDirectory : String) (errorWriter : Writer) (e : ExtError)
    (h1 : w.stdinPipe = none) (h : w.stdoutPipe = some e) :
    (RunOSBuild w manifest store outputDirectory errorWriter).trace
      = [.stdinPipe, .stdoutPipe] ∧
    (RunOSBuild w manifest store outputDirectory errorWriter).result = none ∧
    (RunOSBuild w manifest store outputDirectory errorWriter).err
      = some (Errorf_v "error setting up stdout for osbuild: " e) := by
  simp [RunOSBuild, h1, h]

theorem run_start_fails (w : World Manifest ComposeResult) (manifest : Manifest)
    (store outputDirectory : String) (errorWriter : Writer) (e : ExtError)
    (h1 : w.stdinPipe = none) (h2 : w.stdoutPipe = none) (h : w.start = some e) :
    (RunOSBuild w manifest store outputDirectory errorWriter).trace
      = [.stdinPipe, .stdoutPipe, .start] ∧
    (RunOSBuild w manifest store outputDirectory errorWriter).result = none ∧
    (RunOSBuild w manifest store outputDirectory errorWriter).err
      = some (Errorf_v "error starting osbuild: " e) := by
  simp [RunOSBuild, h1, h2, h]

theorem run_encode_fails (w : World Manifest ComposeResult) (manifest : Manifest)
    (store outputDirectory : String) (errorWriter : Writer) (e : ExtError)
    (h1 : w.stdinPipe = none) (h2 : w.stdoutPipe = none) (h3 : w.start = none)
    (h : w.encode manifest = some e) :
    (RunOSBuild w manifest store outputDirectory errorWriter).trace
      = [.stdinPipe, .stdoutPipe, .start, .encode] ∧
    (RunOSBuild w manifest store outputDirectory errorWriter).result = none ∧
    (RunOSBuild w manifest store outputDirectory errorWriter).err
      = some (Errorf_v "error encoding osbuild pipeline: " e) := by
  simp [RunOSBuild, h1, h2, h3, h]

theorem run_decode_fails (w : World Manifest ComposeResult) (manifest : Manifest)
    (store outputDirectory : String) (errorWriter : Writer) (e : ExtError)
    (h1 : w.stdinPipe = none) (h2 : w.stdoutPipe = none) (h3 : w.start = none)
    (h4 : w.encode manifest = none) (h : w.decode = .error e) :
    (RunOSBuild w manifest store outputDirectory errorWriter).trace
      = [.stdinPipe, .stdoutPipe, .start, .encode, .closeStdin, .decode] ∧
    (RunOSBuild w manifest store outputDirectory errorWriter).result = none ∧
    (RunOSBuild w manifest store outputDirectory errorWriter).err
      = some (Errorf_sharp_v "error decoding osbuild output: " e) := by
  simp [RunOSBuild, h1, h2, h3, h4, h]

theorem run_wait_fails (w : World Manifest ComposeResult) (manifest : Manifest)
    (store outputDirectory : String) (errorWriter : Writer) (r : ComposeResult) (e : ExtError)
    (h1 : w.stdinPipe = none) (h2 : w.stdoutPipe = none) (h3 : w.start = none)
    (h4 : w.encode manifest = none) (h5 : w.decode = .ok r) (h : w.wait = some e) :
    (RunOSBuild w manifest store outputDirectory errorWriter).trace = protocolOrder ∧
    (RunOSBuild w manifest store outputDirectory errorWriter).result = none ∧
    (RunOSBuild w manifest store outputDirectory errorWriter).err
      = some (.osbuild { Message := Sprintf_v "running osbuild failed: " e,
                         Result := some r }) := by
  simp [RunOSBuild, protocolOrder, h1, h2, h3, h4, h5, h]

theorem run_all_succeed (w : World Manifest ComposeResult) (manifest : Manifest)
    (store outputDirectory : String) (errorWriter : Writer) (r : ComposeResult)
    (h1 : w.stdinPipe = none) (h2 : w.stdoutPipe = none) (h3 : w.start = none)
    (h4 : w.encode manifest = none) (h5 : w.decode = .ok r) (h : w.wait = none) :
    (RunOSBuild w manifest store outputDirectory errorWriter).trace = protocolOrder ∧
    (RunOSBuild w manifest store outputDirectory errorWriter).result = some r ∧
    (RunOSBuild w manifest store outputDirectory errorWriter).err = none := by
  simp [RunOSBuild, protocolOrder, h1, h2, h3, h4, h5, h]

/-- The seven ways a run can go, each with its trace and return values. -/
theorem run_cases (w : World Manifest ComposeResult) (manifest : Manifest)
    (store outputDirectory : String) (errorWriter : Writer) :
    let o := RunOSBuild w manifest store outputDirectory errorWriter
    (∃ e, w.stdinPipe = some e ∧ o.trace = [.stdinPipe] ∧ o.result = none ∧
        o.err = some (Errorf_v "error setting up stdin for osbuild: " e)) ∨
    (∃ e, w.stdinPipe = none ∧ w.stdoutPipe = some e ∧
        o.trace = [.stdinPipe, .stdoutPipe] ∧ o.result = none ∧
        o.err = some (Errorf_v "error setting up stdout for osbuild: " e)) ∨
    (∃ e, w.stdinPipe = none ∧ w.stdoutPipe = none ∧ w.start = some e ∧
        o.trace = [.stdinPipe, .stdoutPipe, .start] ∧ o.result = none ∧
        o.err = some (Errorf_v "error starting osbuild: " e)) ∨
    (∃ e, w.stdinPipe = none ∧ w.stdoutPipe = none ∧ w.start = none ∧
        w.encode manifest = some e ∧
        o.trace = [.stdinPipe, .stdoutPipe, .start, .encode] ∧ o.result = none ∧
        o.err = some (Errorf_v "error encoding osbuild pipeline: " e)) ∨
    (∃ e, w.stdinPipe = none ∧ w.stdoutPipe = none ∧ w.start = none ∧
        w.encode manifest = none ∧ w.decode = .error e ∧
        o.trace = [.stdinPipe, .stdoutPipe, .start, .encode, .closeStdin, .decode] ∧
        o.result = none ∧
        o.err = some (Errorf_sharp_v "error decoding osbuild output: " e)) ∨
    (∃ r e, w.stdinPipe = none ∧ w.stdoutPipe = none ∧ w.start = none ∧
        w.encode manifest = none ∧ w.decode = .ok r ∧ w.wait = some e ∧
        o.trace = protocolOrder ∧ o.result = none ∧
        o.err = some (.osbuild { Message := Sprintf_v "running osbuild failed: " e,
                                 Result := some r })) ∨
    (∃ r, w.stdinPipe = none ∧ w.stdoutPipe = none ∧ w.start = none ∧
        w.encode manifest = none ∧ w.decode = .ok r ∧ w.wait = none ∧
        o.trace = protocolOrder ∧ o.result = some r ∧ o.err = none) := by
  intro o
  cases h1 : w.stdinPipe with
  | some e => exact Or.inl ⟨e, rfl, run_stdinPipe_fails w _ _ _ _ e h1⟩
  | none =>
  cases h2 : w.stdoutPipe with
  | some e => exact Or.inr (Or.inl ⟨e, rfl, rfl, run_stdoutPipe_fails w _ _ _ _ e h1 h2⟩)
  | none =>
  cases h3 : w.start with
  | some e =>
    exact Or.inr (Or.inr (Or.inl ⟨e, rfl, rfl, rfl, run_start_fails w _ _ _ _ e h1 h2 h3⟩))
  | none =>
  cases h4 : w.encode manifest with
  | some e =>
    exact Or.inr (Or.inr (Or.inr (Or.inl
      ⟨e, rfl, rfl, rfl, rfl, run_encode_fails w _ _ _ _ e h1 h2 h3 h4⟩)))
  | none =>
  cases h5 : w.decode with
  | error e =>
    exact Or.inr (Or.inr (Or.inr (Or.inr (Or.inl
      ⟨e, rfl, rfl, rfl, rfl, rfl, run_decode_fails w _ _ _ _ e h1 h2 h3 h4 h5⟩))))
  | ok r =>
  cases h6 : w.wait with
  | some e =>
    exact Or.inr (Or.inr (Or.inr (Or.inr (Or.inr (Or.inl
      ⟨r, e, rfl, rfl, rfl, rfl, rfl, rfl, run_wait_fails w _ _ _ _ r e h1 h2 h3 h4 h5 h6⟩)))))
  | none =>
    exact Or.inr (Or.inr (Or.inr (Or.inr (Or.inr (Or.inr
      ⟨r, rfl, rfl, rfl, rfl, rfl, rfl, run_all_succeed w _ _ _ _ r h1 h2 h3 h4 h5 h6⟩)))))

theorem run_command (w : World Manifest ComposeResult) (manifest : Manifest)
    (store outputDirectory : String) (errorWriter : Writer) :
    (RunOSBuild w manifest store outputDirectory errorWriter).cmd
      = { Path := (@exec_Command Writer w.lookPath "osbuild"
            ["--store", store, "--output-directory", outputDirectory, "--json", "-"]).Path,
          Args := ["osbuild", "--store", store, "--output-directory", outputDirectory,
                   "--json", "-"],
          Stderr := some errorWriter } := by
  unfold RunOSBuild
  dsimp only
  repeat' split
  all_goals rfl

theorem append_left_cancel (a b c : String) (h : a ++ b = a ++ c) : b = c := by
  have hdata := congrArg String.data h
  simp only [String.data_append, List.append_cancel_left_eq] at hdata
  exact String.ext hdata

theorem encode_eq_some (w : World Manifest ComposeResult) (manifest : Manifest) (e : ExtError)
    (h : w.encode manifest = some e) :
    w.marshal manifest = some e ∨ (w.marshal manifest = none ∧ w.write manifest = some e) := by
  unfold World.encode at h
  cases hm : w.marshal manifest with
  | some e0 => rw [hm] at h; exact Or.inl h
  | none => rw [hm] at h; exact Or.inr ⟨rfl, h⟩

theorem encode_eq_none (w : World Manifest ComposeResult) (manifest : Manifest)
    (h : w.encode manifest = none) :
    w.marshal manifest = none ∧ w.write manifest = none := by
  unfold World.encode at h
  cases hm : w.marshal manifest with
  | some e0 => rw [hm] at h; exact absurd h (by simp)
  | none => rw [hm] at h; exact ⟨rfl, h⟩

/-- What the returned error of a run in a failure category looks like: which
call it reports, and for a failure of `Encode` whether the error is the one of
marshalling or the one of the write. -/
theorem run_class (w : World Manifest ComposeResult) (manifest : Manifest)
    (store outputDirectory : String) (errorWriter : Writer) (c : Category)
    (hc : category w manifest = some c) :
    (c = .transportSetup ∧
      ((RunOSBuild w manifest store outputDirectory errorWriter).err.bind failedStep
          = some .stdinPipe ∨
        (RunOSBuild w manifest store outputDirectory errorWriter).err.bind failedStep
          = some .stdoutPipe ∨
        (RunOSBuild w manifest store outputDirectory errorWriter).err.bind failedStep
          = some .start)) ∨
    (c = .encoding ∧ ∃ e, w.marshal manifest = some e ∧
      (RunOSBuild w manifest store outputDirectory errorWriter).err
        = some (Errorf_v "error encoding osbuild pipeline: " e)) ∨
    (c.coarse = .decoding ∧ ∃ e, w.write manifest = some e ∧
      (RunOSBuild w manifest store outputDirectory errorWriter).err
        = some (Errorf_v "error encoding osbuild pipeline: " e)) ∨
    (c.coarse = .decoding ∧
      (RunOSBuild w manifest store outputDirectory errorWriter).err.bind failedStep
        = some .decode) ∨
    (c = .engineWithResult ∧
      ((RunOSBuild w manifest store outputDirectory errorWriter).err = none ∨
        (RunOSBuild w manifest store outputDirectory errorWriter).err.bind failedStep
          = some .wait)) := by
  rcases run_cases w manifest store outputDirectory errorWriter with
    ⟨e, h1, -, -, he⟩ | ⟨e, h1, h2, -, -, he⟩ | ⟨e, h1, h2, h3, -, -, he⟩ |
    ⟨e, h1, h2, h3, h4, -, -, he⟩ | ⟨e, h1, h2, h3, h4, h5, -, -, he⟩ |
    ⟨r, e, h1, h2, h3, h4, h5, h6, -, -, he⟩ | ⟨r, h1, h2, h3, h4, h5, h6, -, -, he⟩
  · left
    simp [category, h1] at hc
    exact ⟨hc.symm, Or.inl (by rw [he, Option.some_bind]; exact failedStep_stdinPipe e)⟩
  · left
    simp [category, h1, h2] at hc
    exact ⟨hc.symm, Or.inr (Or.inl (by rw [he, Option.some_bind]; exact failedStep_stdoutPipe e))⟩
  · left
    simp [category, h1, h2, h3] at hc
    exact ⟨hc.symm, Or.inr (Or.inr (by rw [he, Option.some_bind]; exact failedStep_start e))⟩
  · rcases encode_eq_some w manifest e h4 with hm | ⟨hm, hw⟩
    · right; left
      simp [category, h1, h2, h3, hm] at hc
      exact ⟨hc.symm, e, hm, he⟩
    · right; right; left
      refine ⟨?_, e, hw, he⟩
      cases ha : w.abnormal <;> cases hd : w.decode <;>
        simp [category, h1, h2, h3, hm, hw, ha, hd] at hc <;> subst hc <;> rfl
  · right; right; right; left
    obtain ⟨hm, hw⟩ := encode_eq_none w manifest h4
    refine ⟨?_, by rw [he, Option.some_bind]; exact failedStep_decode e⟩
    cases ha : w.abnormal <;>
      simp [category, h1, h2, h3, hm, hw, ha, h5] at hc <;> subst hc <;> rfl
  · right; right; right; right
    obtain ⟨hm, hw⟩ := encode_eq_none w manifest h4
    refine ⟨?_, Or.inr (by rw [he, Option.some_bind]; rfl)⟩
    cases ha : w.abnormal <;>
      simp [category, h1, h2, h3, hm, hw, ha, h5] at hc
    exact hc.symm
  · right; right; right; right
    obtain ⟨hm, hw⟩ := encode_eq_none w manifest h4
    refine ⟨?_, Or.inl he⟩
    cases ha : w.abnormal <;>
      simp [category, h1, h2, h3, hm, hw, ha, h5] at hc
    exact hc.symm

/-! ## The claims -/

/-- C1: when both pipes are set up, the process starts, the manifest is encoded,
the decoder yields a record `r` and `cmd.Wait` reports no error, `RunOSBuild`
returns `r` and a nil error. -/
theorem RunOSBuild_success (w : World Manifest ComposeResult) (manifest : Manifest)
    (store outputDirectory : String) (errorWriter : Writer) (r : ComposeResult)
    (hstdin : w.stdinPipe = none) (hstdout : w.stdoutPipe = none) (hstart : w.start = none)
    (hencode : w.encode manifest = none) (hdecode : w.decode = .ok r)
    (hwait : w.wait = none) :
    (RunOSBuild w manifest store outputDirectory errorWriter).result = some r ∧
    (RunOSBuild w manifest store outputDirectory errorWriter).err = none :=
  (run_all_succeed w manifest store outputDirectory errorWriter r
    hstdin hstdout hstart hencode hdecode hwait).2

/-- The scenario of C1: manifest with two stages, exit zero, a record with both
stages. -/
theorem RunOSBuild_success_witness :
    (worldOk (true, ["stageA", "stageB"])).wait = none ∧
    (RunOSBuild (worldOk (true, ["stageA", "stageB"])) ["stageA", "stageB"]
        "/var/cache/store" "/var/out" ()).result = some (true, ["stageA", "stageB"]) ∧
    (RunOSBuild (worldOk (true, ["stageA", "stageB"])) ["stageA", "stageB"]
        "/var/cache/store" "/var/out" ()).err = none :=
  ⟨rfl, RunOSBuild_success (worldOk (true, ["stageA", "stageB"])) ["stageA", "stageB"]
    "/var/cache/store" "/var/out" () (true, ["stageA", "stageB"]) rfl rfl rfl rfl rfl rfl⟩

/-- C2: when setup, start and encoding succeed, the decoder yields a record `r`
and `cmd.Wait` reports the error `e`, the returned error is an `OSBuildError`
whose `Result` is the non-nil pointer to `r` and whose `Message` is
"running osbuild failed: " followed by the text of `e`. -/
theorem RunOSBuild_engine_failure (w : World Manifest ComposeResult) (manifest : Manifest)
    (store outputDirectory : String) (errorWriter : Writer) (r : ComposeResult) (e : ExtError)
    (hstdin : w.stdinPipe = none) (hstdout : w.stdoutPipe = none) (hstart : w.start = none)
    (hencode : w.encode manifest = none) (hdecode : w.decode = .ok r)
    (hwait : w.wait = some e) :
    ∃ x : OSBuildError ComposeResult,
      (RunOSBuild w manifest store outputDirectory errorWriter).err = some (.osbuild x) ∧
      x.Result ≠ none ∧ x.Result = some r ∧
      x.Message = "running osbuild failed: " ++ e.Error ∧
      x.Error = "running osbuild failed: " ++ e.Error :=
  ⟨{ Message := Sprintf_v "running osbuild failed: " e, Result := some r },
    (run_wait_fails w manifest store outputDirectory errorWriter r e
      hstdin hstdout hstart hencode hdecode hwait).2.2,
    by simp, rfl, rfl, rfl⟩

/-- The scenario of C2: exit status 1 after a record with one stage. -/
theorem RunOSBuild_engine_failure_witness :
    (worldExit1 (false, ["stageA"])).wait = some exitStatus1 ∧
    ∃ x : OSBuildError Record,
      (RunOSBuild (worldExit1 (false, ["stageA"])) ["stageA", "stageB"]
          "/var/cache/store" "/var/out" ()).err = some (.osbuild x) ∧
      x.Result ≠ none ∧ x.Result = some (false, ["stageA"]) ∧
      x.Message = "running osbuild failed: " ++ exitStatus1.Error ∧
      x.Error = "running osbuild failed: " ++ exitStatus1.Error :=
  ⟨rfl, RunOSBuild_engine_failure (worldExit1 (false, ["stageA"])) ["stageA", "stageB"]
    "/var/cache/store" "/var/out" () (false, ["stageA"]) exitStatus1 rfl rfl rfl rfl rfl rfl⟩

/-- C3: when the first call that fails is the creation of the stdin pipe, the
creation of the stdout pipe, the start of the process or the encoding of the
manifest, the returned result is nil, the returned error is the plain error
whose message is the text of that step, a colon and the text of the failure (so
not an `OSBuildError`), the step is read back from the error, and the four
texts are pairwise different. -/
theorem RunOSBuild_transport_failure (w : World Manifest ComposeResult) (manifest : Manifest)
    (store outputDirectory : String) (errorWriter : Writer) (s : Effect) (e : ExtError)
    (hfirst : firstFailure w manifest = some (s, e))
    (hstep : s = .stdinPipe ∨ s = .stdoutPipe ∨ s = .start ∨ s = .encode) :
    (RunOSBuild w manifest store outputDirectory errorWriter).result = none ∧
    (RunOSBuild w manifest store outputDirectory errorWriter).err
      = some (.fmtError (stepLead s ++ ": " ++ e.Error)) ∧
    (∀ x, (RunOSBuild w manifest store outputDirectory errorWriter).err
      ≠ some (.osbuild x)) ∧
    (RunOSBuild w manifest store outputDirectory errorWriter).err.bind failedStep = some s ∧
    stepLead .stdinPipe = "error setting up stdin for osbuild" ∧
    stepLead .stdoutPipe = "error setting up stdout for osbuild" ∧
    stepLead .start = "error starting osbuild" ∧
    stepLead .encode = "error encoding osbuild pipeline" ∧
    (List.map stepLead [.stdinPipe, .stdoutPipe, .start, .encode]).Nodup := by
  refine ⟨?_, ?_, ?_, ?_, rfl, rfl, rfl, rfl, by decide⟩
  all_goals
    rcases run_cases w manifest store outputDirectory errorWriter with
      ⟨e0, h1, -, hr, he⟩ | ⟨e0, h1, h2, -, hr, he⟩ | ⟨e0, h1, h2, h3, -, hr, he⟩ |
      ⟨e0, h1, h2, h3, h4, -, hr, he⟩ | ⟨e0, h1, h2, h3, h4, h5, -, hr, he⟩ |
      ⟨r, e0, h1, h2, h3, h4, h5, h6, -, hr, he⟩ | ⟨r, h1, h2, h3, h4, h5, h6, -, hr, he⟩
  all_goals
    first
    | (simp only [firstFailure, h1, Option.some.injEq, Prod.mk.injEq] at hfirst
       obtain ⟨rfl, rfl⟩ := hfirst
       first
       | exact hr
       | (rw [he, Option.some_bind]; exact failedStep_stdinPipe _)
       | (rw [he]; simp [Errorf_v, stepLead, String.append_assoc]))
    | (simp only [firstFailure, h1, h2, Option.some.injEq, Prod.mk.injEq] at hfirst
       obtain ⟨rfl, rfl⟩ := hfirst
       first
       | exact hr
       | (rw [he, Option.some_bind]; exact failedStep_stdoutPipe _)
       | (rw [he]; simp [Errorf_v, stepLead, String.append_assoc]))
    | (simp only [firstFailure, h1, h2, h3, Option.some.injEq, Prod.mk.injEq] at hfirst
       obtain ⟨rfl, rfl⟩ := hfirst
       first
       | exact hr
       | (rw [he, Option.some_bind]; exact failedStep_start _)
       | (rw [he]; simp [Errorf_v, stepLead, String.append_assoc]))
    | (simp only [firstFailure, h1, h2, h3, h4, Option.some.injEq, Prod.mk.injEq] at hfirst
       obtain ⟨rfl, rfl⟩ := hfirst
       first
       | exact hr
       | (rw [he, Option.some_bind]; exact failedStep_encode _)
       | (rw [he]; simp [Errorf_v, stepLead, String.append_assoc]))
    | (simp [firstFailure, h1, h2, h3, h4, h5] at hfirst
       obtain ⟨rfl, rfl⟩ := hfirst
       simp at hstep)
    | (simp [firstFailure, h1, h2, h3, h4, h5, h6] at hfirst
       obtain ⟨rfl, rfl⟩ := hfirst
       simp at hstep)
    | (simp [firstFailure, h1, h2, h3, h4, h5, h6] at hfirst)


/-- The scenario of C3: the binary does not exist, so the start fails. -/
theorem RunOSBuild_transport_failure_witness :
    firstFailure worldNotFound ["stageA", "stageB"] = some (.start, notFound) ∧
    (RunOSBuild worldNotFound ["stageA", "stageB"] "/var/cache/store" "/var/out" ()).result
      = none ∧
    (RunOSBuild worldNotFound ["stageA", "stageB"] "/var/cache/store" "/var/out" ()).err
      = some (.fmtError ("error starting osbuild" ++ ": " ++ notFound.Error)) :=
  ⟨rfl,
    (RunOSBuild_transport_failure worldNotFound ["stageA", "stageB"] "/var/cache/store"
      "/var/out" () .start notFound rfl (Or.inr (Or.inr (Or.inl rfl)))).1,
    (RunOSBuild_transport_failure worldNotFound ["stageA", "stageB"] "/var/cache/store"
      "/var/out" () .start notFound rfl (Or.inr (Or.inr (Or.inl rfl)))).2.1⟩

/-- C4: when setup, start and encoding succeed and the decoder fails with `e`,
then whatever `cmd.Wait` would report (a nil error included) `RunOSBuild`
returns a nil result and the non-nil error "error decoding osbuild output: "
followed by the Go-syntax form of `e`, which is read back as a decoding error
and is not an `OSBuildError`. -/
theorem RunOSBuild_decode_failure (w : World Manifest ComposeResult) (manifest : Manifest)
    (store outputDirectory : String) (errorWriter : Writer) (e : ExtError)
    (hstdin : w.stdinPipe = none) (hstdout : w.stdoutPipe = none) (hstart : w.start = none)
    (hencode : w.encode manifest = none) (hdecode : w.decode = .error e)
    (exit : Option ExtError) :
    (RunOSBuild { w with wait := exit } manifest store outputDirectory errorWriter).result
      = none ∧
    (RunOSBuild { w with wait := exit } manifest store outputDirectory errorWriter).err
      = some (.fmtError ("error decoding osbuild output: " ++ e.GoString)) ∧
    (RunOSBuild { w with wait := exit } manifest store outputDirectory errorWriter).err
      ≠ none ∧
    (RunOSBuild { w with wait := exit } manifest store outputDirectory
      errorWriter).err.bind failedStep = some .decode := by
  have h := run_decode_fails { w with wait := exit } manifest store outputDirectory
    errorWriter e hstdin hstdout hstart hencode hdecode
  refine ⟨h.2.1, h.2.2, ?_, ?_⟩
  · rw [h.2.2]; simp
  · rw [h.2.2, Option.some_bind]; exact failedStep_decode e

/-- The scenario of C4: a truncated record and exit status zero. -/
theorem RunOSBuild_decode_failure_witness :
    worldTruncatedExit0.decode = .error unexpectedEOF ∧
    (RunOSBuild { worldTruncatedExit0 with wait := none } ["stageA", "stageB"]
      "/var/cache/store" "/var/out" ()).result = none ∧
    (RunOSBuild { worldTruncatedExit0 with wait := none } ["stageA", "stageB"]
      "/var/cache/store" "/var/out" ()).err
      = some (.fmtError ("error decoding osbuild output: " ++ unexpectedEOF.GoString)) :=
  ⟨rfl,
    (RunOSBuild_decode_failure worldTruncatedExit0 ["stageA", "stageB"] "/var/cache/store"
      "/var/out" () unexpectedEOF rfl rfl rfl rfl rfl none).1,
    (RunOSBuild_decode_failure worldTruncatedExit0 ["stageA", "stageB"] "/var/cache/store"
      "/var/out" () unexpectedEOF rfl rfl rfl rfl rfl none).2.1⟩

/-- C5, at two failing runs: when the decoder fails, `RunOSBuild` returns with
the process started and `cmd.Wait` never called; when the encoding fails it
returns with the process started, `cmd.Wait` never called, the stdin pipe
created and `stdin.Close` never called. -/
theorem RunOSBuild_returns_without_wait :
    processStarted worldTruncatedExit1
      (RunOSBuild worldTruncatedExit1 ["stageA", "stageB"] "/var/cache/store" "/var/out" ())
      = true ∧
    waitCalled
      (RunOSBuild worldTruncatedExit1 ["stageA", "stageB"] "/var/cache/store" "/var/out" ())
      = false ∧
    processStarted worldEncodeFails
      (RunOSBuild worldEncodeFails ["stageA", "stageB"] "/var/cache/store" "/var/out" ())
      = true ∧
    waitCalled
      (RunOSBuild worldEncodeFails ["stageA", "stageB"] "/var/cache/store" "/var/out" ())
      = false ∧
    stdinPipeCreated worldEncodeFails
      (RunOSBuild worldEncodeFails ["stageA", "stageB"] "/var/cache/store" "/var/out" ())
      = true ∧
    stdinCloseCalled
      (RunOSBuild worldEncodeFails ["stageA", "stageB"] "/var/cache/store" "/var/out" ())
      = false := by
  refine ⟨?_, ?_, ?_, ?_, ?_, ?_⟩ <;> decide

/-- C6 fails: a run in which the process emits a truncated record and terminates
with status 1 (engine failure without result) and a run in which it emits the
same truncated record and exits zero (decoding failure) return the same
error. -/
theorem category_not_read_from_error :
    category worldTruncatedExit1 ["stageA", "stageB"] = some .engineWithoutResult ∧
    category worldTruncatedExit0 ["stageA", "stageB"] = some .decoding ∧
    (RunOSBuild worldTruncatedExit1 ["stageA", "stageB"] "/var/cache/store" "/var/out" ()).err
      = (RunOSBuild worldTruncatedExit0 ["stageA", "stageB"] "/var/cache/store"
          "/var/out" ()).err :=
  ⟨rfl, rfl, rfl⟩

/-- C6 as amended: two runs that fall into different failure categories, engine
failure without result counting with decoding failure, return different errors,
given that no error of marshalling a manifest in the two runs has the text of
an error of writing one to the pipe. -/
theorem RunOSBuild_error_tells_categories_apart
    (w₁ w₂ : World Manifest ComposeResult) (manifest₁ manifest₂ : Manifest)
    (store₁ outputDirectory₁ store₂ outputDirectory₂ : String) (errorWriter₁ errorWriter₂ : Writer)
    (c₁ c₂ : Category)
    (hc₁ : category w₁ manifest₁ = some c₁) (hc₂ : category w₂ manifest₂ = some c₂)
    (hcat : c₁.coarse ≠ c₂.coarse)
    (hsep : ∀ e₁ e₂ : ExtError,
      (w₁.marshal manifest₁ = some e₁ ∨ w₂.marshal manifest₂ = some e₁) →
      (w₁.write manifest₁ = some e₂ ∨ w₂.write manifest₂ = some e₂) →
      e₁.Error ≠ e₂.Error) :
    (RunOSBuild w₁ manifest₁ store₁ outputDirectory₁ errorWriter₁).err
      ≠ (RunOSBuild w₂ manifest₂ store₂ outputDirectory₂ errorWriter₂).err := by
  intro h
  have k₁ := run_class w₁ manifest₁ store₁ outputDirectory₁ errorWriter₁ c₁ hc₁
  have k₂ := run_class w₂ manifest₂ store₂ outputDirectory₂ errorWriter₂ c₂ hc₂
  rw [h] at k₁
  have henc : ∀ e : ExtError,
      (some (Errorf_v "error encoding osbuild pipeline: " e) :
        Option (GoError ComposeResult)).bind failedStep = some .encode := by
    intro e
    rw [Option.some_bind]
    exact failedStep_encode e
  have hinj : ∀ e₁ e₂ : ExtError,
      (some (Errorf_v "error encoding osbuild pipeline: " e₁) :
        Option (GoError ComposeResult))
        = some (Errorf_v "error encoding osbuild pipeline: " e₂) →
      e₁.Error = e₂.Error := by
    intro e₁ e₂ heq
    simp only [Errorf_v, Option.some.injEq, GoError.fmtError.injEq] at heq
    exact append_left_cancel _ _ _ heq
  rcases k₁ with ⟨a₁, b₁ | b₁ | b₁⟩ | ⟨a₁, e₁, m₁, b₁⟩ | ⟨a₁, e₁, m₁, b₁⟩ | ⟨a₁, b₁⟩ |
      ⟨a₁, b₁ | b₁⟩ <;>
    rcases k₂ with ⟨a₂, b₂ | b₂ | b₂⟩ | ⟨a₂, e₂, m₂, b₂⟩ | ⟨a₂, e₂, m₂, b₂⟩ | ⟨a₂, b₂⟩ |
      ⟨a₂, b₂ | b₂⟩
  all_goals
    first
    | (apply hcat; rw [a₁, a₂]; done)
    | (rw [b₂] at b₁; exact hsep e₁ e₂ (Or.inl m₁) (Or.inr m₂) (hinj e₂ e₁ b₁).symm)
    | (rw [b₂] at b₁; exact hsep e₂ e₁ (Or.inr m₂) (Or.inl m₁) (hinj e₂ e₁ b₁))
    | (rw [b₂, henc] at b₁; simp at b₁)
    | (rw [b₁, henc] at b₂; simp at b₂)
    | (rw [b₂] at b₁; simp at b₁)
    | (rw [b₁] at b₂; simp at b₂)

/-- Two runs for the amended C6: a manifest that cannot be serialized, and a
process that exits with status 1 at once so that the write of the manifest
fails. -/
theorem RunOSBuild_error_tells_categories_apart_witness :
    category worldMarshalFails ["stageA"] = some .encoding ∧
    category worldCrashAtOnce ["stageA"] = some .engineWithoutResult ∧
    Category.encoding.coarse ≠ Category.engineWithoutResult.coarse ∧
    (RunOSBuild worldMarshalFails ["stageA"] "/var/cache/store" "/var/out" ()).err
      ≠ (RunOSBuild worldCrashAtOnce ["stageA"] "/var/cache/store" "/var/out" ()).err :=
  ⟨rfl, rfl, by decide,
    RunOSBuild_error_tells_categories_apart worldMarshalFails worldCrashAtOnce ["stageA"]
      ["stageA"] "/var/cache/store" "/var/out" "/var/cache/store" "/var/out" () ()
      .encoding .engineWithoutResult rfl rfl (by decide)
      (by
        intro e₁ e₂ h₁ h₂
        have g₁ : e₁ = marshalError := by
          rcases h₁ with h₁ | h₁
          · exact (Option.some.inj h₁).symm
          · exact absurd h₁ (by simp [worldCrashAtOnce, worldOk])
        have g₂ : e₂ = brokenPipe := by
          rcases h₂ with h₂ | h₂
          · exact absurd h₂ (by simp [worldMarshalFails, worldOk])
          · exact (Option.some.inj h₂).symm
        rw [g₁, g₂]
        decide)⟩

/-- C8: the calls of every run are a beginning of the protocol order (stdin
pipe, stdout pipe, start, encode, close stdin, decode, wait) and none is made
twice; once both pipes exist exactly one start is attempted; a start is
attempted only after both pipes were created; and a result that is returned,
or attached to the returned `OSBuildError`, is the record decoded in a run whose
calls are the whole protocol order, where the decode comes before the wait and
nothing comes after it. -/
theorem RunOSBuild_trace_in_protocol_order (w : World Manifest ComposeResult)
    (manifest : Manifest) (store outputDirectory : String) (errorWriter : Writer) :
    (RunOSBuild w manifest store outputDirectory errorWriter).trace <+: protocolOrder ∧
    (RunOSBuild w manifest store outputDirectory errorWriter).trace.Nodup ∧
    (w.stdinPipe = none → w.stdoutPipe = none →
      (RunOSBuild w manifest store outputDirectory errorWriter).trace.count .start = 1) ∧
    (Effect.start ∈ (RunOSBuild w manifest store outputDirectory errorWriter).trace →
      w.stdinPipe = none ∧ w.stdoutPipe = none ∧
      ∃ rest, (RunOSBuild w manifest store outputDirectory errorWriter).trace
        = .stdinPipe :: .stdoutPipe :: .start :: rest) ∧
    (∀ r, ((RunOSBuild w manifest store outputDirectory errorWriter).result = some r ∨
        ∃ msg, (RunOSBuild w manifest store outputDirectory errorWriter).err
          = some (.osbuild { Message := msg, Result := some r })) →
      w.decode = .ok r ∧
      (RunOSBuild w manifest store outputDirectory errorWriter).trace
        = [.stdinPipe, .stdoutPipe, .start, .encode, .closeStdin, .decode, .wait]) := by
  rcases run_cases w manifest store outputDirectory errorWriter with
    ⟨e0, h1, ht, hr, he⟩ | ⟨e0, h1, h2, ht, hr, he⟩ | ⟨e0, h1, h2, h3, ht, hr, he⟩ |
    ⟨e0, h1, h2, h3, h4, ht, hr, he⟩ | ⟨e0, h1, h2, h3, h4, h5, ht, hr, he⟩ |
    ⟨r0, e0, h1, h2, h3, h4, h5, h6, ht, hr, he⟩ | ⟨r0, h1, h2, h3, h4, h5, h6, ht, hr, he⟩
  all_goals rw [ht, hr, he]
  all_goals
    refine ⟨by decide, by decide, ?_, ?_, ?_⟩
  all_goals
    simp [h1, protocolOrder, Errorf_v, Errorf_sharp_v]
  all_goals
    first
    | exact h5
    | simp [h2]

/-- C9: the command `RunOSBuild` builds has the name "osbuild" at the head of
its arguments, followed by exactly "--store", store, "--output-directory",
outputDirectory, "--json", "-", with the two paths as they were given, one
argument each, and the caller's `errorWriter` as its stderr; the arguments and
the stderr are the same for every manifest and whatever the calls of the run
return, and in one environment the whole command is the same for every
manifest. -/
theorem RunOSBuild_command (w : World Manifest ComposeResult) (manifest : Manifest)
    (store outputDirectory : String) (errorWriter : Writer) :
    (RunOSBuild w manifest store outputDirectory errorWriter).cmd.Args
      = "osbuild" :: ["--store", store, "--output-directory", outputDirectory, "--json", "-"] ∧
    (RunOSBuild w manifest store outputDirectory errorWriter).cmd.Args.length = 7 ∧
    (RunOSBuild w manifest store outputDirectory errorWriter).cmd.Args.head? = some "osbuild" ∧
    (RunOSBuild w manifest store outputDirectory errorWriter).cmd.Args.get? 2 = some store ∧
    (RunOSBuild w manifest store outputDirectory errorWriter).cmd.Args.get? 4
      = some outputDirectory ∧
    (RunOSBuild w manifest store outputDirectory errorWriter).cmd.Stderr = some errorWriter ∧
    (∀ (w0 : World Manifest ComposeResult) (manifest0 : Manifest),
      (RunOSBuild w0 manifest0 store outputDirectory errorWriter).cmd.Args
        = (RunOSBuild w manifest store outputDirectory errorWriter).cmd.Args ∧
      (RunOSBuild w0 manifest0 store outputDirectory errorWriter).cmd.Stderr
        = (RunOSBuild w manifest store outputDirectory errorWriter).cmd.Stderr) ∧
    (∀ manifest0 : Manifest,
      (RunOSBuild w manifest0 store outputDirectory errorWriter).cmd
        = (RunOSBuild w manifest store outputDirectory errorWriter).cmd) := by
  refine ⟨?_, ?_, ?_, ?_, ?_, ?_, ?_, ?_⟩
  · rw [run_command]
  · rw [run_command]; rfl
  · rw [run_command]; rfl
  · rw [run_command]; rfl
  · rw [run_command]; rfl
  · rw [run_command]
  · intro w0 manifest0
    rw [run_command, run_command]
    exact ⟨rfl, rfl⟩
  · intro manifest0
    rw [run_command, run_command]

/-- C10: of the two return values of `RunOSBuild` exactly one is non-nil; when
the record `r` is decoded and `cmd.Wait` fails, the returned result is nil and
`r` is the `Result` of the returned `OSBuildError`; and the return values, like
the rest of the run, are the same whatever `stdin.Close()` returns. -/
theorem RunOSBuild_exactly_one_return_value (w : World Manifest ComposeResult)
    (manifest : Manifest) (store outputDirectory : String) (errorWriter : Writer) :
    ((RunOSBuild w manifest store outputDirectory errorWriter).result ≠ none ↔
      (RunOSBuild w manifest store outputDirectory errorWriter).err = none) ∧
    (∀ r e, w.stdinPipe = none → w.stdoutPipe = none → w.start = none →
      w.encode manifest = none → w.decode = .ok r → w.wait = some e →
      (RunOSBuild w manifest store outputDirectory errorWriter).result = none ∧
      ∃ x : OSBuildError ComposeResult,
        (RunOSBuild w manifest store outputDirectory errorWriter).err = some (.osbuild x) ∧
        x.Result = some r) ∧
    (∀ close : Option ExtError,
      (RunOSBuild { w with closeStdin := close } manifest store outputDirectory
          errorWriter).result
        = (RunOSBuild w manifest store outputDirectory errorWriter).result ∧
      (RunOSBuild { w with closeStdin := close } manifest store outputDirectory
          errorWriter).err
        = (RunOSBuild w manifest store outputDirectory errorWriter).err ∧
      (RunOSBuild { w with closeStdin := close } manifest store outputDirectory
          errorWriter).trace
        = (RunOSBuild w manifest store outputDirectory errorWriter).trace) := by
  refine ⟨?_, ?_, ?_⟩
  · rcases run_cases w manifest store outputDirectory errorWriter with
      ⟨e0, -, -, hr, he⟩ | ⟨e0, -, -, -, hr, he⟩ | ⟨e0, -, -, -, -, hr, he⟩ |
      ⟨e0, -, -, -, -, -, hr, he⟩ | ⟨e0, -, -, -, -, -, -, hr, he⟩ |
      ⟨r0, e0, -, -, -, -, -, -, -, hr, he⟩ | ⟨r0, -, -, -, -, -, -, -, hr, he⟩
    all_goals rw [hr, he]; simp
  · intro r e h1 h2 h3 h4 h5 h6
    have h := run_wait_fails w manifest store outputDirectory errorWriter r e h1 h2 h3 h4 h5 h6
    exact ⟨h.2.1, _, h.2.2, rfl⟩
  · intro close
    exact ⟨rfl, rfl, rfl⟩

/-- The scenario of C10 on engine failure: exit status 1 after a record with one
stage, with a failing close of stdin. -/
theorem RunOSBuild_exactly_one_return_value_witness :
    ((RunOSBuild (worldExit1 (false, ["stageA"])) ["stageA", "stageB"] "/var/cache/store"
        "/var/out" ()).result ≠ none ↔
      (RunOSBuild (worldExit1 (false, ["stageA"])) ["stageA", "stageB"] "/var/cache/store"
        "/var/out" ()).err = none) ∧
    (RunOSBuild (worldExit1 (false, ["stageA"])) ["stageA", "stageB"] "/var/cache/store"
        "/var/out" ()).result = none ∧
    (RunOSBuild { worldExit1 (false, ["stageA"]) with closeStdin := some brokenPipe }
        ["stageA", "stageB"] "/var/cache/store" "/var/out" ()).err
      = (RunOSBuild (worldExit1 (false, ["stageA"])) ["stageA", "stageB"] "/var/cache/store"
        "/var/out" ()).err :=
  ⟨(RunOSBuild_exactly_one_return_value (worldExit1 (false, ["stageA"])) ["stageA", "stageB"]
      "/var/cache/store" "/var/out" ()).1,
    ((RunOSBuild_exactly_one_return_value (worldExit1 (false, ["stageA"])) ["stageA", "stageB"]
      "/var/cache/store" "/var/out" ()).2.1 (false, ["stageA"]) exitStatus1
        rfl rfl rfl rfl rfl rfl).1,
    ((RunOSBuild_exactly_one_return_value (worldExit1 (false, ["stageA"])) ["stageA", "stageB"]
      "/var/cache/store" "/var/out" ()).2.2 (some brokenPipe)).2.1⟩

/-- A run for C8: the start fails after both pipes were created. -/
theorem RunOSBuild_trace_in_protocol_order_witness :
    (RunOSBuild worldNotFound ["stageA", "stageB"] "/var/cache/store" "/var/out" ()).trace
      <+: protocolOrder ∧
    (RunOSBuild worldNotFound ["stageA", "stageB"] "/var/cache/store" "/var/out" ()).trace.count
      .start = 1 :=
  ⟨(RunOSBuild_trace_in_protocol_order worldNotFound ["stageA", "stageB"] "/var/cache/store"
      "/var/out" ()).1,
    (RunOSBuild_trace_in_protocol_order worldNotFound ["stageA", "stageB"] "/var/cache/store"
      "/var/out" ()).2.2.1 rfl rfl⟩

/-! ## Lemmas on the two pipes -/

theorem callsAfterStart_eq :
    callsAfterStart = [.encode, .closeStdin, .decode, .wait] := rfl

theorem Reach.trans {p : Pipes} {a b c : Sys} (hab : Reach p a b) (hbc : Reach p b c) :
    Reach p a c := by
  induction hbc with
  | here => exact hab
  | move _ hmove ih => exact Reach.move ih hmove

theorem jammed_started (cap x y : Nat) (rest : List ChildOp) :
    Jammed cap x y rest
      (started (cap + x + 1) (List.replicate (cap + y + 1) ChildOp.writeByte ++ rest)) :=
  ⟨cap + x, cap + y, [.closeStdin, .decode, .wait], rfl, rfl, rfl, by simp [started],
    by simp [started], by simp [started], by simp [started]⟩

theorem jammed_move (p : Pipes) (cap x y : Nat) (rest : List ChildOp) (s u : Sys)
    (hp : p.Bounded cap) (hs : Jammed cap x y rest s) (hu : u ∈ moves p s) :
    Jammed cap x y rest u := by
  obtain ⟨calls, left, stdin, closed, stdout, child⟩ := s
  obtain ⟨k, n, cs, hcalls, hleft, hc, hk, hn, hin, hout⟩ := hs
  simp only at hcalls hleft hc hk hn hin hout
  subst hcalls hleft hc
  simp only [moves, List.mem_append] at hu
  rcases hu with hu | hu
  · simp only [parentMoves, List.replicate_succ, List.cons_append] at hu
    rw [if_neg (by simp)] at hu
    split at hu
    · rename_i htakes
      have hlt := hp.1 _ htakes
      simp only at hlt
      simp at hu
      subst hu
      obtain ⟨k0, rfl⟩ : ∃ k0, k = k0 + 1 := ⟨k - 1, by omega⟩
      exact ⟨k0, n, cs, rfl, rfl, rfl, by simp only; omega, by simp only; omega,
        by simp only; omega, by simp only; omega⟩
    · simp at hu
  · simp only [childMoves, List.replicate_succ, List.cons_append] at hu
    split at hu
    · rename_i htakes
      have hlt := hp.2 _ htakes
      simp only at hlt
      simp at hu
      subst hu
      obtain ⟨n0, rfl⟩ : ∃ n0, n = n0 + 1 := ⟨n - 1, by omega⟩
      exact ⟨k, n0, cs, rfl, rfl, rfl, by simp only; omega, by simp only; omega,
        by simp only; omega, by simp only; omega⟩
    · simp at hu

theorem jammed_reach (p : Pipes) (cap x y : Nat) (rest : List ChildOp) (s : Sys)
    (hp : p.Bounded cap)
    (hs : Reach p
      (started (cap + x + 1) (List.replicate (cap + y + 1) ChildOp.writeByte ++ rest)) s) :
    Jammed cap x y rest s := by
  induction hs with
  | here => exact jammed_started cap x y rest
  | move _ hmove ih => exact jammed_move p cap x y rest _ _ hp ih hmove

theorem reach_parent_writes (cap : Nat) (child : List ChildOp) (hchild : child ≠ [])
    (j : Nat) (hj : j ≤ cap) (k : Nat) :
    Reach (byteCounter cap) (started (j + k) child)
      { calls := callsAfterStart, left := k, stdin := j, stdinClosed := false, stdout := 0,
        child := child } := by
  induction j generalizing k with
  | zero => rw [Nat.zero_add]; exact Reach.here
  | succ j ih =>
    have h := ih (by omega) (k + 1)
    rw [show j + 1 + k = j + (k + 1) by omega]
    refine Reach.move h ?_
    simp only [moves, parentMoves, callsAfterStart_eq, List.mem_append]
    left
    rw [if_neg hchild, if_pos (by simp [byteCounter]; omega)]
    simp

theorem reach_child_writes (cap : Nat) (calls : List Effect) (left i : Nat) (c : Bool)
    (rest : List ChildOp) (j : Nat) (hj : j ≤ cap) (n : Nat) :
    Reach (byteCounter cap)
      { calls := calls, left := left, stdin := i, stdinClosed := c, stdout := 0,
        child := List.replicate (j + n) ChildOp.writeByte ++ rest }
      { calls := calls, left := left, stdin := i, stdinClosed := c, stdout := j,
        child := List.replicate n ChildOp.writeByte ++ rest } := by
  induction j generalizing n with
  | zero => rw [Nat.zero_add]; exact Reach.here
  | succ j ih =>
    have h := ih (by omega) (n + 1)
    rw [show j + 1 + n = j + (n + 1) by omega]
    refine Reach.move h ?_
    simp only [moves, childMoves, List.mem_append, List.replicate_succ, List.cons_append]
    right
    rw [if_pos (by simp [byteCounter]; omega)]
    simp

/-- When `Encode` has more than `cap` bytes to write and the process writes more
than `cap` bytes before it reads, the state in which both pipes are full is
reached and has no move. -/
theorem reach_stuck (cap x y : Nat) (rest : List ChildOp) :
    Reach (byteCounter cap)
      (started (cap + (x + 1)) (List.replicate (cap + (y + 1)) ChildOp.writeByte ++ rest))
      { calls := callsAfterStart, left := x + 1, stdin := cap, stdinClosed := false,
        stdout := cap, child := List.replicate (y + 1) ChildOp.writeByte ++ rest } ∧
    moves (byteCounter cap)
      { calls := callsAfterStart, left := x + 1, stdin := cap, stdinClosed := false,
        stdout := cap, child := List.replicate (y + 1) ChildOp.writeByte ++ rest } = [] := by
  refine ⟨?_, ?_⟩
  · refine Reach.trans (reach_parent_writes cap _ ?_ cap (Nat.le_refl _) (x + 1))
      (reach_child_writes cap _ _ cap false rest cap (Nat.le_refl _) (y + 1))
    rw [show cap + (y + 1) = (cap + y) + 1 by omega]
    simp [List.replicate_succ]
  · simp [moves, parentMoves, childMoves, callsAfterStart_eq, byteCounter,
      List.replicate_succ]

/-- C7 fails: `Encode` has 65538 bytes to write, a manifest of 65537 bytes of JSON
and the newline, and the process writes 65537 bytes of output before it reads
its input.  With pipes that never hold more than 65536 bytes, however they
account for their room, `RunOSBuild` has not returned in any state that the two
can reach; and with pipes that take a byte whenever they hold fewer than 65536,
the two reach the state with both pipes full, the function in `Encode` with two
bytes left and the process with one byte left to write, from which neither has
a move. -/
theorem RunOSBuild_deadlocks_on_large_manifest :
    (∀ p : Pipes, p.Bounded 65536 →
      ∀ s, Reach p (started 65538 (writesFirst 65537 65538)) s → s.calls ≠ []) ∧
    Reach (byteCounter 65536) (started 65538 (writesFirst 65537 65538))
      { calls := [.encode, .closeStdin, .decode, .wait], left := 2, stdin := 65536,
        stdinClosed := false, stdout := 65536,
        child := List.replicate 1 ChildOp.writeByte
          ++ List.replicate 65538 ChildOp.readByte } ∧
    moves (byteCounter 65536)
      { calls := [.encode, .closeStdin, .decode, .wait], left := 2, stdin := 65536,
        stdinClosed := false, stdout := 65536,
        child := List.replicate 1 ChildOp.writeByte
          ++ List.replicate 65538 ChildOp.readByte } = [] := by
  refine ⟨?_, ?_, ?_⟩
  · intro p hp s hs
    obtain ⟨k, n, cs, hcalls, -⟩ :=
      jammed_reach p 65536 1 0 (List.replicate 65538 ChildOp.readByte) s hp hs
    rw [hcalls]
    exact List.cons_ne_nil _ _
  · exact (reach_stuck 65536 1 0 (List.replicate 65538 ChildOp.readByte)).1
  · exact (reach_stuck 65536 1 0 (List.replicate 65538 ChildOp.readByte)).2

/-- C7 as amended: `RunOSBuild` performs the write of the manifest and the read
of the result as two blocking calls in sequence, not side by side: in every
run in which `Decode` is called, `Encode` has returned a nil error before, and the
calls up to there are the two pipes, the start, `Encode`, `stdin.Close()` and
`Decode` in this order; a run in which `Encode` returns an error never calls
`Decode`. -/
theorem RunOSBuild_write_then_read (w : World Manifest ComposeResult) (manifest : Manifest)
    (store outputDirectory : String) (errorWriter : Writer) :
    (Effect.decode ∈ (RunOSBuild w manifest store outputDirectory errorWriter).trace →
      w.encode manifest = none ∧
      ∃ rest, (RunOSBuild w manifest store outputDirectory errorWriter).trace
        = [.stdinPipe, .stdoutPipe, .start, .encode, .closeStdin, .decode] ++ rest) ∧
    (w.encode manifest ≠ none →
      Effect.decode ∉ (RunOSBuild w manifest store outputDirectory errorWriter).trace) := by
  have key : Effect.decode ∈ (RunOSBuild w manifest store outputDirectory errorWriter).trace →
      w.encode manifest = none ∧
      ∃ rest, (RunOSBuild w manifest store outputDirectory errorWriter).trace
        = [.stdinPipe, .stdoutPipe, .start, .encode, .closeStdin, .decode] ++ rest := by
    intro hmem
    rcases run_cases w manifest store outputDirectory errorWriter with
      ⟨e0, -, ht, -⟩ | ⟨e0, -, -, ht, -⟩ | ⟨e0, -, -, -, ht, -⟩ |
      ⟨e0, -, -, -, -, ht, -⟩ | ⟨e0, -, -, -, h4, -, ht, -⟩ |
      ⟨r0, e0, -, -, -, h4, -, -, ht, -⟩ | ⟨r0, -, -, -, h4, -, -, ht, -⟩
    all_goals rw [ht] at hmem ⊢
    all_goals first
      | exact absurd hmem (by decide)
      | exact ⟨h4, [], rfl⟩
      | exact ⟨h4, [.wait], rfl⟩
  exact ⟨key, fun hne hmem => hne (key hmem).1⟩

/-- Two runs for the amended C7: in the run in which every call succeeds `Decode`
comes after `Encode` and `stdin.Close()`, and in the run in which the write of the
manifest fails `Decode` is not called. -/
theorem RunOSBuild_write_then_read_witness :
    (RunOSBuild (worldOk (true, ["stageA"])) ["stageA"] "/var/cache/store" "/var/out" ()).trace
      = [.stdinPipe, .stdoutPipe, .start, .encode, .closeStdin, .decode, .wait] ∧
    Effect.decode ∉
      (RunOSBuild worldEncodeFails ["stageA"] "/var/cache/store" "/var/out" ()).trace :=
  ⟨rfl,
    (RunOSBuild_write_then_read worldEncodeFails ["stageA"] "/var/cache/store" "/var/out"
      ()).2 (by decide)⟩

end Theorems

end OSBuild
